import Mathlib

/-!
Verification of the agent orchestration engine
(`agent/worker.py`, `agent/utils.py`, `agent/nodes/coder.py`,
`agent/mcp_adapter.py`, `agent/local_tools.py`, `agent/system_mappings.py`).

Each Python function relevant to the checked claims is embedded as an
executable Lean definition; theorems settle the specification claims
against those definitions.
-/

namespace Agent

/-- An invocation (LangChain tool call) emitted by a model turn:
`{name, args, id}`. Arguments are modelled as an association list from
argument name to string value. -/
structure ToolCall where
  name : String
  args : List (String × String)
  callId : String
deriving Repr, DecidableEq

/-- A conversation message: `SystemMessage`, `HumanMessage`,
`AIMessage{content, tool_calls}` or `ToolMessage`. -/
inductive Message where
  | system (content : String)
  | human (content : String)
  | ai (content : String) (toolCalls : List ToolCall)
  | tool (content : String) (callId : String)
deriving Repr, DecidableEq

/-- Whether a message is an `AIMessage` (a model turn). -/
def Message.isAI : Message → Bool
  | .ai _ _ => true
  | _ => false

/-- The tool calls carried by a message (`[]` for non-AI messages). -/
def Message.toolCallsOf : Message → List ToolCall
  | .ai _ tcs => tcs
  | _ => []

/-- The free-text content of a message. -/
def Message.contentOf : Message → String
  | .system c => c
  | .human c => c
  | .ai c _ => c
  | .tool c _ => c

/-- Whether a model turn carries (non-empty) text. -/
def Message.hasText (m : Message) : Bool := m.contentOf ≠ ""

/-! ## `agent/utils.py`: `sanitize_response` -/

/-- Characters admitted by the character class `[a-zA-Z0-9_-]`. -/
def isIdentChar (c : Char) : Bool :=
  ('a' ≤ c && c ≤ 'z') || ('A' ≤ c && c ≤ 'Z') || ('0' ≤ c && c ≤ '9') ||
    c = '_' || c = '-'

/-- Semantics of Python `re.match(r"^[a-zA-Z0-9_-]+$", s)` viewed as a
Boolean: a non-empty run of admitted characters spanning the string, where
`$` also matches just before a single trailing newline. -/
def namePatternMatch (s : String) : Bool :=
  let cs := s.data
  (decide (cs ≠ []) && cs.all isIdentChar) ||
    (match cs.reverse with
     | '\n' :: rest => decide (rest ≠ []) && rest.all isIdentChar
     | _ => false)

/-- The keep-condition applied by `sanitize_response` to one tool call:
`name_pattern.match(name) and len(name) < 64`. -/
def keepToolCall (tc : ToolCall) : Bool :=
  namePatternMatch tc.name && tc.name.length < 64

/-- `agent/utils.py::sanitize_response`: on an `AIMessage` with tool calls,
keep exactly the calls whose name matches the identifier pattern and has
length strictly below 64; other messages pass through unchanged. -/
def sanitize_response (m : Message) : Message :=
  match m with
  | .ai content tcs =>
      if tcs = [] then .ai content tcs
      else .ai content (tcs.filter keepToolCall)
  | other => other

/-! ## `agent/worker.py`: `check_exit` and the tool sets -/

/-- The value `check_exit` hands to the conditional-edge router:
`"correction"`, `END`, or `"tools"`. -/
inductive ExitRoute where
  | correction
  | finish
  | tools
deriving Repr, DecidableEq

/-- `check_exit` applied to the last message of the state:
not an `AIMessage` or no tool calls → `"correction"`; any call named
`finish_task` → `END`; otherwise `"tools"`. -/
def check_exit_last (last : Message) : ExitRoute :=
  match last with
  | .ai _ tcs =>
      if tcs = [] then .correction
      else if tcs.any (fun c => c.name = "finish_task") then .finish
      else .tools
  | _ => .correction

/-- `agent/worker.py::check_exit`: inspects `state["messages"][-1]`
(`none` models the `IndexError` on an empty conversation). -/
def check_exit (messages : List Message) : Option ExitRoute :=
  (messages.getLast?).map check_exit_last

/-- `read_tools` of `process_task_with_langgraph` (tools named). -/
def read_tools : List String := ["list_files", "read_file"]

/-- `write_tools` of `process_task_with_langgraph`: the locally defined
capabilities with mutating effect. -/
def write_tools : List String :=
  ["git_create_branch", "write_to_file", "git_push_origin", "create_github_pr"]

/-- `base_tools` of `process_task_with_langgraph`. -/
def base_tools : List String := ["log_thought", "finish_task"]

/-- `analyst_tools = all_mcp_tools + read_tools + base_tools`: the
capability subset bound to the Analyst, as a function of the externally
supplied MCP capability set. -/
def analyst_tools (all_mcp_tools : List String) : List String :=
  all_mcp_tools ++ read_tools ++ base_tools

/-- `coder_tools = all_mcp_tools + read_tools + write_tools + base_tools`;
also the set the shared `ToolNode` is built from. -/
def coder_tools (all_mcp_tools : List String) : List String :=
  all_mcp_tools ++ read_tools ++ write_tools ++ base_tools

/-! ## `agent/nodes/coder.py`: the Specialist retry ladder -/

/-- One model-backend response: free text plus requested invocations. -/
structure ModelResponse where
  content : String
  toolCalls : List ToolCall
deriving Repr, DecidableEq

/-- The model backend as an oracle: conversation and `tool_choice` mode in,
response out; `.error` models a raised exception in the LLM call. -/
def LlmOracle : Type := List Message → String → Except String ModelResponse

/-- The `AIMessage` forcing directive appended after a degenerate attempt. -/
def forcingAI : Message :=
  Message.ai
    "I have analyzed the files and planned the changes. I am ready to write the code."
    []

/-- The `HumanMessage` forcing directive appended after a degenerate attempt
(source text with quote marks omitted). -/
def forcingHuman : Message :=
  Message.human "Good. STOP THINKING. Call write_to_file NOW with the complete content."

/-- The hard-exit fallback message returned after 3 failed attempts: content
`"Stuck."` plus a synthesized `finish_task` invocation. -/
def stuckMessage : Message :=
  Message.ai "Stuck."
    [⟨"finish_task", [("summary", "Agent stuck.")], "call_emergency"⟩]

/-- The attempt loop of `coder_node` (`for attempt in range(3)`), with the
remaining attempt budget as fuel. Returns the `tool_choice` used at each
performed LLM call (in order) and the message the node finally returns.
A raised LLM exception is swallowed (logged) and the loop continues with
unchanged `tool_choice` and conversation; a degenerate response escalates
`tool_choice` to `"any"` and appends the two forcing directives. -/
def coderAttempts (llm : LlmOracle) : Nat → String → List Message → List String × Message
  | 0, _, _ => ([], stuckMessage)
  | n + 1, choice, msgs =>
      match llm msgs choice with
      | .error _ =>
          let r := coderAttempts llm n choice msgs
          (choice :: r.1, r.2)
      | .ok resp =>
          if resp.content ≠ "" || resp.toolCalls ≠ [] then
            ([choice], Message.ai resp.content resp.toolCalls)
          else
            let r := coderAttempts llm n "any" (msgs ++ [forcingAI, forcingHuman])
            (choice :: r.1, r.2)

/-- The Coder system instruction (`CODER_SYSTEM_PROMPT` plus the repo
reminder line). Its text is never inspected by any orchestration logic, so
the long prompt body is abbreviated to a tag here. -/
def coderSystemText (repoUrl : String) : String :=
  "CODER_SYSTEM_PROMPT\nRepo: " ++ repoUrl ++ "\n\nREMINDER: Create a branch first!"

/-- Trace of one `coder_node` activation: the `tool_choice` values of the
performed LLM attempts, and the single message returned to the state. -/
structure CoderRun where
  choices : List String
  result : Message
deriving Repr, DecidableEq

/-- `agent/nodes/coder.py::coder_node`: prepends the system message, runs up
to 3 attempts starting in `tool_choice = "auto"`, and falls back to the
synthesized stuck message. -/
def coder_node (llm : LlmOracle) (repoUrl : String) (stateMessages : List Message) : CoderRun :=
  let r := coderAttempts llm 3 "auto" (Message.system (coderSystemText repoUrl) :: stateMessages)
  ⟨r.1, r.2⟩

/-! ## `agent/mcp_adapter.py`: the bound-capability wrapper `tool_func` -/

/-- One content block of an MCP call result: `{type, text}`. -/
structure ContentBlock where
  type : String
  text : String
deriving Repr, DecidableEq

/-- An MCP `call_tool` result: content blocks plus the `isError` flag. -/
structure CallToolResult where
  content : List ContentBlock
  isError : Bool
deriving Repr, DecidableEq

/-- Outcome of `session.call_tool`: a returned result, or a raised
transport exception carrying `str(e)`. -/
inductive CallOutcome where
  | ok (r : CallToolResult)
  | exn (msg : String)
deriving Repr, DecidableEq

/-- How `tool_func` renders one content block into `output_text`: text
blocks verbatim, any other type as a `[{type} content]` placeholder. -/
def renderBlock (b : ContentBlock) : String :=
  if b.type = "text" then b.text else "[" ++ b.type ++ " content]"

/-- `agent/mcp_adapter.py::tool_func`, the invocable wrapper produced for a
bound capability. Total (never raises): every failure mode is converted to
a returned string. `sessionConnected = false` models `self.session` being
`None` (the raised `RuntimeError` is caught by the surrounding `except`;
quote marks of the source message omitted). -/
def tool_func (toolName : String) (sessionConnected : Bool) (outcome : CallOutcome) : String :=
  if sessionConnected = false then
    "EXCEPTION in tool " ++ toolName ++
      ": MCP Session not connected. Ensure the client is used within an async with block."
  else
    match outcome with
    | .exn e => "EXCEPTION in tool " ++ toolName ++ ": " ++ e
    | .ok r =>
        let outputText := r.content.map renderBlock
        if r.isError then
          "ERROR executing " ++ toolName ++ ": " ++ String.intercalate ", " outputText
        else
          let final := String.intercalate "\n" outputText
          if final.trim ≠ "" then final
          else "Tool " ++ toolName ++ " executed successfully."

/-! ## `agent/system_mappings.py`: `parse_trello_response` -/

/-- A JSON-like Python value, as handled by the Trello response parser. -/
inductive JVal where
  | null
  | str (s : String)
  | num (n : Int)
  | bool (b : Bool)
  | arr (elems : List JVal)
  | obj (fields : List (String × JVal))
deriving Repr

/-- Python `d.get(k)` on a dict value (`none` both for a missing key and
for a non-dict receiver, which the parser guards with `isinstance`). -/
def JVal.getField : JVal → String → Option JVal
  | .obj fs, k => fs.lookup k
  | _, _ => none

/-- Python `isinstance(v, dict)`. -/
def JVal.isDict : JVal → Bool
  | .obj _ => true
  | _ => false

/-- Python iteration as used by `list.extend(x)`: lists yield elements,
strings yield 1-character strings, dicts yield their keys; other values
raise `TypeError` (`none`). -/
def pyIter : JVal → Option (List JVal)
  | .arr xs => some xs
  | .str s => some (s.data.map (fun c => JVal.str (String.mk [c])))
  | .obj fs => some (fs.map (fun p => JVal.str p.1))
  | _ => none

/-- A canonical task record `{id, title, description}`; `none` models the
Python `None` produced by `card.get(...)` for a missing field. -/
structure CanonTask where
  id : Option JVal
  title : Option JVal
  description : Option JVal
deriving Repr

/-- The field mapping applied to one raw card:
`{"id": card.get("id"), "title": card.get("name"), "description": card.get("desc")}`. -/
def cardToTask (card : JVal) : CanonTask :=
  ⟨card.getField "id", card.getField "name", card.getField "desc"⟩

/-- The `lists` branch of the parser: for each group that is a dict with a
`"cards"` key, `all_cards.extend(group["cards"])` (`none` models the
`TypeError` when that value is not iterable). -/
def collectListsCards : List JVal → List JVal → Option (List JVal)
  | [], acc => some acc
  | tl :: rest, acc =>
      match tl with
      | .obj fs =>
          match fs.lookup "cards" with
          | some v =>
              match pyIter v with
              | some xs => collectListsCards rest (acc ++ xs)
              | none => none
          | none => collectListsCards rest acc
      | _ => collectListsCards rest acc

/-- `agent/system_mappings.py::parse_trello_response`: accepts a bare list
of cards, a dict with a top-level `"cards"` list, or a dict with nested
`"lists"` whose groups carry `"cards"`; flattens, keeps only dict cards,
and maps each to the canonical record. -/
def parse_trello_response (data : JVal) : Option (List CanonTask) :=
  let rawCards :=
    match data with
    | .arr xs => some xs
    | .obj fs =>
        match fs.lookup "cards" with
        | some (.arr xs) => some xs
        | _ =>
            match fs.lookup "lists" with
            | some (.arr ls) => collectListsCards ls []
            | _ => some []
    | _ => some []
  rawCards.map (fun cards => (cards.filter JVal.isDict).map cardToTask)

/-! ## `agent/mcp_adapter.py`: `McpServerClient.__aenter__` -/

/-- Outcomes of the three acquisition steps of `__aenter__` — entering
`stdio_client`, entering `ClientSession`, and the handshake — where
`some e` is a raised exception with message `e`. -/
structure StartupOutcome where
  stdioErr : Option String
  sessionErr : Option String
  handshakeErr : Option String
deriving Repr, DecidableEq

/-- Resources registered on the client's `AsyncExitStack`. -/
inductive Resource where
  | stdioTransport
  | clientSession
deriving Repr, DecidableEq

/-- Runs the acquisition sequence, returning the resources entered on the
exit stack so far and the first raised error, if any. -/
def runStartup (o : StartupOutcome) : List Resource × Option String :=
  match o.stdioErr with
  | some e => ([], some e)
  | none =>
      match o.sessionErr with
      | some e => ([Resource.stdioTransport], some e)
      | none =>
          match o.handshakeErr with
          | some e => ([Resource.stdioTransport, Resource.clientSession], some e)
          | none => ([Resource.stdioTransport, Resource.clientSession], none)

/-- `AsyncExitStack.aclose()`: unwinds and releases every registered
resource. -/
def aclose (stack : List Resource) : List Resource :=
  match stack with
  | _ => []

/-- Result of `__aenter__`: the resources still held afterwards, and either
success or the message of the raised `RuntimeError`. -/
structure EnterResult where
  held : List Resource
  result : Except String Unit
deriving Repr

/-- `agent/mcp_adapter.py::McpServerClient.__aenter__`: on any acquisition
failure, `aclose` the exit stack and re-raise as
`RuntimeError("Failed to start MCP Server ({command}): {e}")`. -/
def aenter (command : String) (o : StartupOutcome) : EnterResult :=
  match runStartup o with
  | (stack, some e) =>
      ⟨aclose stack, .error ("Failed to start MCP Server (" ++ command ++ "): " ++ e)⟩
  | (stack, none) => ⟨stack, .ok ()⟩

/-! ## `agent/local_tools.py`: path confinement of `read_file` / `write_to_file` -/

/-- Python `a.startswith(b)` / string prefix test, character-wise (kept as
an explicitly reducing definition). -/
def startsWithStr (pre s : String) : Bool :=
  pre.data.isPrefixOf s.data

/-- ASCII lower-casing of one character (Python `str.lower` on the ASCII
route strings used here). -/
def lowerChar (c : Char) : Char :=
  if 'A' ≤ c && c ≤ 'Z' then Char.ofNat (c.toNat + 32) else c

/-- Python `s.lower()`, character-wise. -/
def lowerStr (s : String) : String :=
  String.mk (s.data.map lowerChar)

/-- Splitting a path on `/` (the component view used by `normpath`),
written as structural recursion so it reduces in the kernel. -/
def splitSlashAux : List Char → List Char → List String
  | [], acc => [String.mk acc.reverse]
  | c :: rest, acc =>
      if c = '/' then String.mk acc.reverse :: splitSlashAux rest []
      else splitSlashAux rest (c :: acc)

/-- Splits a string on `/`. -/
def splitSlash (s : String) : List String :=
  splitSlashAux s.data []

/-- Joins components with `/`. -/
def joinSlash : List String → String
  | [] => ""
  | [x] => x
  | x :: rest => x ++ "/" ++ joinSlash rest

/-- The base directory both file tools confine to. -/
def base_dir : String := "/app/work_dir"

/-- Python `filepath.lstrip("/")`. -/
def lstripSlashes (s : String) : String :=
  String.mk (s.data.dropWhile (fun c => c = '/'))

/-- `os.path.abspath` on an already-absolute path: split on `/`, drop empty
and `.` components, resolve `..` against the component stack (at the root
`..` is dropped), and rejoin. -/
def normalizeAbs (s : String) : String :=
  let comps := (splitSlash s).filter (fun c => c ≠ "" && c ≠ ".")
  let resolved := comps.foldl (fun acc c => if c = ".." then acc.dropLast else acc ++ [c]) []
  "/" ++ joinSlash resolved

/-- The absolute path a file tool actually operates on:
`os.path.abspath(os.path.join(base_dir, filepath.lstrip("/")))`. -/
def resolvedPath (filepath : String) : String :=
  normalizeAbs (base_dir ++ "/" ++ lstripSlashes filepath)

/-- The security gate shared by `read_file` and `write_to_file`:
`os.path.abspath(full_path).startswith(base_dir)`. -/
def pathCheckPasses (filepath : String) : Bool :=
  startsWithStr base_dir (resolvedPath filepath)

/-- Claim-side confinement: a resolved path lies under the base directory
iff it equals the base or is strictly below it. -/
def isUnderBase (p : String) : Bool :=
  p = base_dir || startsWithStr (base_dir ++ "/") p

/-- What a file tool does with its `filepath` argument: return
`"ERROR: Access denied."` or proceed to read/write at the resolved path. -/
inductive FileAccess where
  | denied
  | operate (path : String)
deriving Repr, DecidableEq

/-- The shared access decision of `read_file` and `write_to_file`. -/
def file_access (filepath : String) : FileAccess :=
  if pathCheckPasses filepath then .operate (resolvedPath filepath) else .denied

/-! ## `agent/worker.py`: final result extraction (lines 153–158) -/

/-- Python `call["args"].get("summary", "Task completed.")`. -/
def lookupArg (args : List (String × String)) (k dflt : String) : String :=
  match args.lookup k with
  | some v => v
  | none => dflt

/-- The summary a single message yields: for an `AIMessage`, the `summary`
argument of its first `finish_task` call, if any. -/
def finishSummary (m : Message) : Option String :=
  match m with
  | .ai _ tcs =>
      match tcs.find? (fun c => c.name = "finish_task") with
      | some c => some (lookupArg c.args "summary" "Task completed.")
      | none => none
  | _ => none

/-- Scan of the reversed conversation for the most recent `finish_task`. -/
def extract_summary_go : List Message → String
  | [] => "Agent finished without a summary."
  | m :: rest =>
      match finishSummary m with
      | some s => s
      | none => extract_summary_go rest

/-- `agent/worker.py::process_task_with_langgraph`, lines 153–158: walk the
final messages in reverse; the first `finish_task` call found yields its
`summary` argument; otherwise the default sentinel. -/
def extract_summary (messages : List Message) : String :=
  extract_summary_go messages.reverse

/-! ## `agent/worker.py`: graph wiring and execution

The LangGraph runtime is modelled by its documented semantics: nodes run
one per super-step, conditional edges choose the successor, and exceeding
`recursion_limit` before reaching `END` raises `GraphRecursionError`,
which `process_task_with_langgraph` does not catch. -/

/-- The nodes registered on the `StateGraph`. -/
inductive GNode where
  | router
  | coder
  | bugfixer
  | analyst
  | tools
  | correction
deriving Repr, DecidableEq

/-- The graph state (`AgentState`): the message channel (append-only) and
`next_step`. -/
structure GState where
  messages : List Message
  nextStep : String
deriving Repr, DecidableEq

/-- How a graph execution ends abnormally: `GraphRecursionError` from the
LangGraph runtime, or a conditional-edge value missing from the edge map. -/
inductive GraphError where
  | recursionLimit
  | invalidEdge
deriving Repr, DecidableEq

/-- Modelled from the spec: the Correction node (`agent/nodes/correction.py`
is absent from the sources) appends a "stop planning, act now" directive
and leaves `next_step` unchanged. -/
def correctionDirective : String := "Stop planning. Act now."

/-- The external node behaviors the graph is wired with: the Router's
classification output (`agent/nodes/router.py` is absent from the sources
and is modelled from the spec as writing its classification to
`next_step`), the three specialist node functions (each returns the one
message appended to the state), and the tool executor backing `ToolNode`. -/
structure GraphEnv where
  routerOut : List Message → String
  coderStep : List Message → Message
  bugfixerStep : List Message → Message
  analystStep : List Message → Message
  toolExec : ToolCall → String

/-- LangGraph's prebuilt `ToolNode`: one `ToolMessage` per tool call of the
last `AIMessage`, in request order. -/
def toolNodeRun (toolExec : ToolCall → String) (msgs : List Message) : List Message :=
  match msgs.getLast? with
  | some (.ai _ tcs) => tcs.map (fun tc => Message.tool (toolExec tc) tc.callId)
  | _ => []

/-- Executes one node on the state. -/
def execNode (env : GraphEnv) (n : GNode) (s : GState) : GState :=
  match n with
  | .router => { s with nextStep := env.routerOut s.messages }
  | .coder => { s with messages := s.messages ++ [env.coderStep s.messages] }
  | .bugfixer => { s with messages := s.messages ++ [env.bugfixerStep s.messages] }
  | .analyst => { s with messages := s.messages ++ [env.analystStep s.messages] }
  | .tools => { s with messages := s.messages ++ toolNodeRun env.toolExec s.messages }
  | .correction => { s with messages := s.messages ++ [Message.human correctionDirective] }

/-- `route_after_router` / `route_back` share this lowering of `next_step`
to a specialist node name. -/
def specialistOf (step : String) : Option GNode :=
  if step = "coder" then some .coder
  else if step = "bugfixer" then some .bugfixer
  else if step = "analyst" then some .analyst
  else none

/-- The conditional edges of the graph, exactly as wired in
`process_task_with_langgraph`: `some (some n)` = continue at `n`,
`some none` = `END`, `none` = the edge value is missing from the edge map.
The `analyst` map omits `"correction"`; `route_back`'s map covers only the
three specialists. -/
def routeAfter (n : GNode) (s : GState) : Option (Option GNode) :=
  match n with
  | .router =>
      match specialistOf (lowerStr s.nextStep) with
      | some g => some (some g)
      | none => some (some .coder)
  | .coder | .bugfixer =>
      match check_exit s.messages with
      | some .tools => some (some .tools)
      | some .correction => some (some .correction)
      | some .finish => some none
      | none => none
  | .analyst =>
      match check_exit s.messages with
      | some .tools => some (some .tools)
      | some .finish => some none
      | _ => none
  | .tools | .correction =>
      match specialistOf (lowerStr s.nextStep) with
      | some g => some (some g)
      | none => none

/-- The LangGraph execution loop under `recursion_limit` fuel: each
super-step executes one node then follows its conditional edge; running
out of fuel before `END` raises `GraphRecursionError`. -/
def runGraph (env : GraphEnv) : Nat → GNode → GState → Except GraphError GState
  | 0, _, _ => .error .recursionLimit
  | fuel + 1, n, s =>
      let s2 := execNode env n s
      match routeAfter n s2 with
      | none => .error .invalidEdge
      | some none => .ok s2
      | some (some n2) => runGraph env fuel n2 s2

/-- `agent/worker.py::process_task_with_langgraph` (execution part): seeds
the initial Human message, invokes the compiled graph with the given
`recursion_limit`, and extracts the final summary; a `GraphRecursionError`
is not caught and propagates to the caller. -/
def process_task (env : GraphEnv) (recursionLimit : Nat)
    (taskTitle taskDescription : String) : Except GraphError String :=
  let init : GState :=
    ⟨[Message.human ("Task: " ++ taskTitle ++ "\nDescription: " ++ taskDescription)], ""⟩
  match runGraph env recursionLimit .router init with
  | .error e => .error e
  | .ok s => .ok (extract_summary s.messages)

/-- A model backend that always requests one non-terminal invocation
(`log_thought`). -/
def logThoughtOracle : LlmOracle :=
  fun _ _ => .ok ⟨"", [⟨"log_thought", [("thought", "Planning the next step.")], "tc1"⟩]⟩

/-- A model backend that always returns a degenerate turn. -/
def degenerateOracle : LlmOracle :=
  fun _ _ => .ok ⟨"", []⟩

/-- A concrete wired graph: Router classifies to CODER, the Coder node is
the embedded `coder_node` over the given oracle, tools echo a fixed
result. The bugfixer/analyst slots reuse the coder ladder (they are never
reached in the theorems below). -/
def mkEnv (llm : LlmOracle) : GraphEnv :=
  { routerOut := fun _ => "CODER"
    coderStep := fun msgs => (coder_node llm "https://github.com/tom-test-user/test-repo.git" msgs).result
    bugfixerStep := fun msgs => (coder_node llm "https://github.com/tom-test-user/test-repo.git" msgs).result
    analystStep := fun msgs => (coder_node llm "https://github.com/tom-test-user/test-repo.git" msgs).result
    toolExec := fun _ => "Thought recorded. Proceed with the next tool." }

/-! ## Theorems -/

/-- Claim C2, counterexample: a last ModelTurn that carries text but no
invocations IS routed to `"correction"` by `check_exit`, contradicting the
claim that such a turn is never routed to CORRECTION. -/
theorem correction_route_text_only_ce :
    check_exit [Message.ai "I reviewed the code and here is my analysis." []] =
      some ExitRoute.correction ∧
    (Message.ai "I reviewed the code and here is my analysis." []).hasText = true := by
  decide

/-- Claim C2 (amended): `check_exit` selects `"correction"` iff the last
message is not a ModelTurn or holds no invocations; the text content of
the turn is never consulted. -/
theorem correction_route_iff (pre : List Message) (m : Message) :
    check_exit (pre ++ [m]) = some ExitRoute.correction ↔
      (m.isAI = false ∨ m.toolCallsOf = []) := by
  have hlast : (pre ++ [m]).getLast? = some m := List.getLast?_concat pre
  rw [check_exit, hlast]
  cases m with
  | ai c tcs =>
      by_cases h : tcs = []
      · subst h
        simp [check_exit_last, Message.isAI, Message.toolCallsOf]
      · simp only [check_exit_last, Message.isAI, Message.toolCallsOf, h, if_neg h,
          Option.map_some]
        by_cases hf : tcs.any (fun c => c.name = "finish_task") = true
        · simp [check_exit_last, hf, h]
        · simp [check_exit_last, hf, h]
  | system c => simp [check_exit_last, Message.isAI, Message.toolCallsOf]
  | human c => simp [check_exit_last, Message.isAI, Message.toolCallsOf]
  | tool c i => simp [check_exit_last, Message.isAI, Message.toolCallsOf]

/-- Claim C3, counterexample: a supplied capability set containing the
mutating capability `write_to_file` (one of the source's own
`write_tools`) is bound to the Analyst unfiltered. -/
theorem analyst_mutating_ce :
    "write_to_file" ∈ analyst_tools ["write_to_file"] ∧
    "write_to_file" ∈ write_tools := by
  decide

/-- Claim C3 (amended): the Analyst subset excludes the locally defined
write tools, but performs no filtering of the supplied MCP capability set:
a write-named capability is bound to the Analyst exactly when the supplied
set contains it. -/
theorem analyst_tools_write_iff_mcp (mcp : List String) (t : String)
    (hw : t ∈ write_tools) :
    t ∈ analyst_tools mcp ↔ t ∈ mcp := by
  have h1 : t ∉ read_tools := by fin_cases hw <;> decide
  have h2 : t ∉ base_tools := by fin_cases hw <;> decide
  simp [analyst_tools, List.mem_append, h1, h2]

/-- Witness for C3: instantiates the amended theorem at the mutating
capability `git_push_origin` and an empty supplied set. -/
theorem analyst_tools_write_iff_mcp_witness :
    "git_push_origin" ∈ write_tools ∧
    ("git_push_origin" ∈ analyst_tools [] ↔ "git_push_origin" ∈ ([] : List String)) :=
  ⟨by decide, analyst_tools_write_iff_mcp [] "git_push_origin" (by decide)⟩

/-- A 64-character name made only of letters. -/
def name64 : String := String.mk (List.replicate 64 'a')

/-- Claim C4, counterexample: a valid-pattern name of exactly 64 characters
does not exceed 64 characters, yet `sanitize_response` drops it (the code
keeps only `len(name) < 64`). -/
theorem sanitize_len64_ce :
    namePatternMatch name64 = true ∧ name64.length = 64 ∧
    sanitize_response (Message.ai "" [⟨name64, [], "c1"⟩]) = Message.ai "" [] := by
  decide

/-- Claim C4 (amended): sanitization keeps exactly the invocations whose
name matches `^[a-zA-Z0-9_-]+$` under Python semantics (a non-empty run of
letters, digits, underscore or hyphen, where a single trailing newline is
tolerated by `$`) and whose length is strictly below 64; all others are
dropped. The claim's examples hold: a free-text sentence name is dropped,
`git_push_origin` is kept, a 70-character valid-pattern name is dropped. -/
theorem sanitize_keep_iff :
    (∀ (content : String) (tcs : List ToolCall) (tc : ToolCall),
      tc ∈ (sanitize_response (Message.ai content tcs)).toolCallsOf ↔
        tc ∈ tcs ∧ namePatternMatch tc.name = true ∧ tc.name.length < 64) ∧
    keepToolCall ⟨"Hello, I think we should...", [], "x1"⟩ = false ∧
    keepToolCall ⟨"git_push_origin", [], "x2"⟩ = true ∧
    keepToolCall ⟨String.mk (List.replicate 70 'a'), [], "x3"⟩ = false := by
  refine ⟨fun content tcs tc => ?_, by decide, by decide, by decide⟩
  by_cases h : tcs = []
  · subst h
    simp [sanitize_response, Message.toolCallsOf]
  · simp [sanitize_response, h, Message.toolCallsOf, List.mem_filter, keepToolCall,
      Bool.and_eq_true, decide_eq_true_iff, and_assoc]

/-- Claim C5, counterexample: against an always-degenerate backend the
Coder escalates `tool_choice` to `"any"` (the mandatory mode) already on
its second attempt, not only on the final one — the performed attempts use
`["auto", "any", "any"]`, whose middle (non-final) entry is `"any"`. -/
theorem coder_escalation_ce :
    (coder_node degenerateOracle "r" []).choices = ["auto", "any", "any"] ∧
    (coder_node degenerateOracle "r" []).choices.get? 1 = some "any" ∧
    (coder_node degenerateOracle "r" []).result = stuckMessage := by
  decide

/-- Claim C5 (amended): for every backend that returns a degenerate turn on
every call, the Coder performs exactly 3 attempts, escalating invocation
mode to `"any"` from the second attempt on (immediately after the first
degenerate response), and then returns the synthesized terminal
`finish_task` invocation whose summary states the agent is stuck — never
an empty turn. -/
theorem coder_degenerate_run (llm : LlmOracle) (repoUrl : String)
    (msgs : List Message) (h : ∀ ms c, llm ms c = .ok ⟨"", []⟩) :
    (coder_node llm repoUrl msgs).choices = ["auto", "any", "any"] ∧
    (coder_node llm repoUrl msgs).result = stuckMessage := by
  simp [coder_node, coderAttempts, h]

/-- Witness for C5: the amended theorem applied to the concrete
always-degenerate backend. -/
theorem coder_degenerate_run_witness :
    (coder_node degenerateOracle "repo" []).choices = ["auto", "any", "any"] ∧
    (coder_node degenerateOracle "repo" []).result = stuckMessage :=
  coder_degenerate_run degenerateOracle "repo" [] (fun _ _ => rfl)

/-- Claim C6, counterexample: on a transport exception the wrapper returns
a string beginning with `EXCEPTION`, not a textual `ERROR: ...` string as
the claim states. -/
theorem tool_func_exception_ce :
    tool_func "git_status" true (CallOutcome.exn "boom") =
      "EXCEPTION in tool git_status: boom" ∧
    startsWithStr "ERROR" (tool_func "git_status" true (CallOutcome.exn "boom")) = false := by
  decide

/-- Claim C6 (amended): the wrapper is total (never raises) and returns:
`"EXCEPTION in tool NAME: msg"` on a transport exception,
`"ERROR executing NAME: ..."` (joined rendered output) when the peer flags
failure, the newline-join of the rendered content blocks (text blocks
verbatim, non-text blocks as placeholders) on success with non-blank
output, and the canonical `"Tool NAME executed successfully."` string on
success with blank output. -/
theorem tool_func_cases (name : String) (outcome : CallOutcome) :
    (∀ e, outcome = .exn e →
      tool_func name true outcome = "EXCEPTION in tool " ++ name ++ ": " ++ e) ∧
    (∀ r, outcome = .ok r → r.isError = true →
      tool_func name true outcome =
        "ERROR executing " ++ name ++ ": " ++
          String.intercalate ", " (r.content.map renderBlock)) ∧
    (∀ r, outcome = .ok r → r.isError = false →
      (String.intercalate "\n" (r.content.map renderBlock)).trim = "" →
      tool_func name true outcome = "Tool " ++ name ++ " executed successfully.") ∧
    (∀ r, outcome = .ok r → r.isError = false →
      (String.intercalate "\n" (r.content.map renderBlock)).trim ≠ "" →
      tool_func name true outcome = String.intercalate "\n" (r.content.map renderBlock)) := by
  refine ⟨?_, ?_, ?_, ?_⟩
  · intro e he
    subst he
    simp [tool_func]
  · intro r hr hisErr
    subst hr
    simp [tool_func, hisErr]
  · intro r hr hisErr htrim
    subst hr
    simp [tool_func, hisErr, htrim]
  · intro r hr hisErr htrim
    subst hr
    simp [tool_func, hisErr, htrim]

/-- Witness for C6: the case theorem applied at a concrete transport
exception. -/
theorem tool_func_cases_witness :
    tool_func "t" true (CallOutcome.exn "fail") = "EXCEPTION in tool t: fail" :=
  (tool_func_cases "t" (CallOutcome.exn "fail")).1 "fail" rfl

/-- A 4500-character summary. -/
def summary4500 : String := String.mk (List.replicate 4500 'x')

/-- Claim C7, counterexample: a 4500-character summary is returned verbatim
at full length by the result extraction — it is not truncated to its first
4000 characters and no truncation marker is appended. -/
theorem summary_no_truncation_ce :
    extract_summary [Message.ai "" [⟨"finish_task", [("summary", summary4500)], "c1"⟩]] =
      summary4500 ∧
    summary4500.length = 4500 := by
  refine ⟨rfl, ?_⟩
  show (List.replicate 4500 'x').length = 4500
  exact List.length_replicate 4500 'x'

/-- Claim C7 (amended): the result extraction returns the `summary`
argument of the most recent terminal invocation verbatim, whatever its
length; no truncation and no marker are applied. -/
theorem extract_summary_verbatim (pre : List Message)
    (s cid content : String) :
    extract_summary (pre ++ [Message.ai content [⟨"finish_task", [("summary", s)], cid⟩]]) = s := by
  have hfs : finishSummary (Message.ai content [⟨"finish_task", [("summary", s)], cid⟩]) =
      some s := rfl
  rw [extract_summary, List.reverse_append]
  simp only [List.reverse_cons, List.reverse_nil, List.nil_append, List.singleton_append]
  rw [extract_summary_go, hfs]

/-- Claim C1: with a step bound of 5 and a model backend that always issues
a non-terminal invocation, the execution does NOT return the default
"no summary found" result — it raises `GraphRecursionError`, which
`process_task_with_langgraph` leaves uncaught, so the exception propagates
to its caller instead of the claimed default result. -/
theorem stepBound_raises_not_default :
    process_task (mkEnv logThoughtOracle) 5 "T" "D" = .error GraphError.recursionLimit ∧
    process_task (mkEnv logThoughtOracle) 5 "T" "D" ≠ .ok "Agent finished without a summary." := by
  have h : process_task (mkEnv logThoughtOracle) 5 "T" "D" =
      .error GraphError.recursionLimit := rfl
  exact ⟨h, by simp [h]⟩

/-- Claim C8: the task-source parser maps all three raw shapes — a bare
list of cards, a flat object with a top-level `cards` field, and a nested
object whose cards are distributed across `lists` — to the same flat list
of canonical records, and the concrete nested example parses to the
claimed canonical task. -/
theorem parse_trello_shapes (cards : List JVal) :
    parse_trello_response (.arr cards) =
      some ((cards.filter JVal.isDict).map cardToTask) ∧
    parse_trello_response (.obj [("cards", .arr cards)]) =
      some ((cards.filter JVal.isDict).map cardToTask) ∧
    parse_trello_response (.obj [("lists", .arr [.obj [("cards", .arr cards)]])]) =
      some ((cards.filter JVal.isDict).map cardToTask) ∧
    parse_trello_response
        (.obj [("lists", .arr [.obj [("cards",
          .arr [.obj [("id", .str "1"), ("name", .str "A"), ("desc", .str "d")]])]])]) =
      some [⟨some (.str "1"), some (.str "A"), some (.str "d")⟩] :=
  ⟨rfl, rfl, rfl, rfl⟩

/-- Claim C9: whenever any of the three acquisition steps of `__aenter__`
fails, the call returns the `AdapterStartupFailure` error (the
`RuntimeError` with the "Failed to start MCP Server" message, propagated
to the caller) and every partially-acquired resource has been released. -/
theorem aenter_failure_released (cmd : String) (o : StartupOutcome)
    (h : o.stdioErr ≠ none ∨ o.sessionErr ≠ none ∨ o.handshakeErr ≠ none) :
    (aenter cmd o).held = [] ∧
    ∃ e, (aenter cmd o).result =
      .error ("Failed to start MCP Server (" ++ cmd ++ "): " ++ e) := by
  rcases o with ⟨_ | e1, s2, s3⟩
  · rcases s2 with _ | e2
    · rcases s3 with _ | e3
      · simp at h
      · exact ⟨rfl, ⟨e3, rfl⟩⟩
    · exact ⟨rfl, ⟨e2, rfl⟩⟩
  · exact ⟨rfl, ⟨e1, rfl⟩⟩

/-- Witness for C9: the theorem applied to a concrete spawn failure of the
first acquisition step. -/
theorem aenter_failure_released_witness :
    (aenter "tsx" ⟨some "spawn failed", none, none⟩).held = [] ∧
    ∃ e, (aenter "tsx" ⟨some "spawn failed", none, none⟩).result =
      .error ("Failed to start MCP Server (" ++ "tsx" ++ "): " ++ e) :=
  aenter_failure_released "tsx" ⟨some "spawn failed", none, none⟩ (by simp)

/-- Claim C10: the path confinement gate of `read_file` / `write_to_file`
is a string-prefix test on the normalized path, so the traversal argument
`"../work_dir_evil/secret.txt"` resolves outside the base directory yet
passes the check — the tool proceeds to operate on
`/app/work_dir_evil/secret.txt` instead of returning "ERROR: Access
denied.", contradicting the confinement claim. -/
theorem path_escape_bug :
    file_access "../work_dir_evil/secret.txt" =
      FileAccess.operate "/app/work_dir_evil/secret.txt" ∧
    isUnderBase "/app/work_dir_evil/secret.txt" = false := by
  decide

end Agent
